import Mathlib

/-!
Verification development for the kobo-ha dashboard renderer (src/app.py, with
numeric_state from src/python/app.py). The Python source is shallowly
embedded: pure helpers become Lean functions, the Home Assistant gateway
calls and the PIL text rasterizer become explicit parameters (a World
record), and build_image_bytes becomes the ordered list of draw commands it
issues together with the pixel buffer they produce.
-/

/-- An exact fraction num / den (den kept positive by every constructor the
embedding uses), the value of a parsed Python float. Kept unnormalized so
that every operation is plain integer arithmetic. -/
structure PyFloat where
  num : Int
  den : Int
deriving DecidableEq, Repr

/-- An attribute value of a Home Assistant entity, as the JSON the gateway
returns carries it: a string or a number (numbers modelled as exact
fractions). -/
inductive AttrVal where
  | str (s : String)
  | num (v : PyFloat)
deriving DecidableEq, Repr

/-- An attributes map: an association list, first binding wins (the embedding
of a Python dict with string keys). -/
abbrev Attrs := List (String × AttrVal)

/-- Python attrs.get(k): the value bound to k, if any. -/
def aget (attrs : Attrs) (k : String) : Option AttrVal := attrs.lookup k

/-- Python truthiness of an attribute value: the empty string and zero are
falsy, everything else is truthy. -/
def truthy : AttrVal → Bool
  | .str s => s != ""
  | .num v => v.num != 0

/-- Python "a or b" on two optional attribute values (None is falsy). -/
def pyOr (a b : Option AttrVal) : Option AttrVal :=
  match a with
  | some v => if truthy v then some v else b
  | none => b

/-- Python "a or b" where b is a plain value. -/
def pyOrD (a : Option AttrVal) (b : AttrVal) : AttrVal :=
  match a with
  | some v => if truthy v then v else b
  | none => b

/-- Python str.strip(): drop leading and trailing whitespace. -/
def pyStrip (s : String) : String :=
  ⟨((s.data.dropWhile Char.isWhitespace).reverse.dropWhile Char.isWhitespace).reverse⟩

/-- Python str.lower(), modelled as per-character ASCII case folding. -/
def pyLower (s : String) : String := ⟨s.data.map Char.toLower⟩

/-- Python str.capitalize(): first character uppercased, the rest lowercased
(ASCII model). -/
def pyCapitalize (s : String) : String :=
  match s.data with
  | [] => ""
  | c :: cs => ⟨c.toUpper :: cs.map Char.toLower⟩

/-- Python s.startswith(p), via the underlying character lists. -/
def startswith (s p : String) : Bool := p.data.isPrefixOf s.data

/-- Value of a list of decimal digit characters. -/
def digitsToNat (l : List Char) : Nat := l.foldl (fun a c => a * 10 + (c.toNat - 48)) 0

/-- Whether l is one or more decimal digits. -/
def allDigits (l : List Char) : Bool := !l.isEmpty && l.all Char.isDigit

/-- Model of Python float(s) for decimal notation: optional surrounding
whitespace, an optional sign, digits with an optional decimal point (at least
one digit in the mantissa), and an optional decimal exponent. Values are
exact fractions; "inf"/"nan" and underscore digit separators are outside the
model. -/
def pyFloat? (s : String) : Option PyFloat :=
  let l := ((s.data.dropWhile Char.isWhitespace).reverse.dropWhile Char.isWhitespace).reverse
  let sl : Int × List Char :=
    match l with
    | '+' :: rest => (1, rest)
    | '-' :: rest => (-1, rest)
    | rest => (1, rest)
  let mant := (sl.2.span (fun c => c != 'e' && c != 'E')).1
  let erest := (sl.2.span (fun c => c != 'e' && c != 'E')).2
  let expo : Option Int :=
    match erest with
    | [] => some 0
    | _ :: er =>
      match er with
      | '+' :: t => if allDigits t then some (digitsToNat t) else none
      | '-' :: t => if allDigits t then some (-(digitsToNat t : Int)) else none
      | t => if allDigits t then some (digitsToNat t) else none
  let ip := (mant.span (fun c => c != '.')).1
  let fp' := (mant.span (fun c => c != '.')).2
  let frac : Option (Nat × Nat) :=
    match fp' with
    | [] => if allDigits ip then some (digitsToNat ip, 0) else none
    | _ :: fp =>
      if ip.all Char.isDigit && fp.all Char.isDigit && (!ip.isEmpty || !fp.isEmpty) then
        some (digitsToNat (ip ++ fp), fp.length)
      else none
  match frac, expo with
  | some (m, fl), some e =>
    if (fl : Int) ≤ e then some ⟨sl.1 * m * 10 ^ (e - fl).toNat, 1⟩
    else some ⟨sl.1 * m, 10 ^ ((fl : Int) - e).toNat⟩
  | _, _ => none

/-- Python float(v) on an attribute value: numbers convert directly, strings
go through float parsing. -/
def pyFloatV : AttrVal → Option PyFloat
  | .num v => some v
  | .str s => pyFloat? s

/-- Round to the nearest integer, ties to even: the rounding of Python's
fixed-point formatting on exactly representable values. The floor is the
Euclidean one (den is positive), the remainder is compared with half of den
by cross multiplication. -/
def PyFloat.roundHalfEven (x : PyFloat) : Int :=
  let f := x.num.fdiv x.den
  let r := x.num - f * x.den
  if 2 * r < x.den then f
  else if x.den < 2 * r then f + 1
  else if f % 2 = 0 then f else f + 1

/-- Python f-string "{v:.1f}" on an exact fraction. -/
def formatFixed1 (x : PyFloat) : String :=
  let n := PyFloat.roundHalfEven ⟨x.num * 10, x.den⟩
  let sgn := if n < 0 then "-" else ""
  sgn ++ toString (n.natAbs / 10) ++ "." ++ toString (n.natAbs % 10)

/-- Python f-string "{v:.0f}" on an exact fraction. -/
def formatFixed0 (x : PyFloat) : String := toString x.roundHalfEven

/-- Python str(v) when an attribute value is interpolated into an f-string.
The rendering of non-integral numbers is a simplified model; no claim below
depends on its exact form. -/
def valStr : AttrVal → String
  | .str s => s
  | .num v =>
    if v.den = 1 then toString v.num ++ ".0"
    else toString v.num ++ "/" ++ toString v.den

/-- Embedding of format_speed (src/app.py lines 83-91). The state is none
for Python None, otherwise the entity's state string. -/
def format_speed (state : Option String) (attrs : Attrs) : String :=
  match state with
  | none => "-"
  | some s =>
    if s = "unknown" ∨ s = "unavailable" then "-"
    else
      let unit := valStr ((aget attrs "unit_of_measurement").getD (.str ""))
      match pyFloat? s with
      | some value => pyStrip (formatFixed1 value ++ " " ++ unit)
      | none => pyStrip (s ++ " " ++ unit)

/-- The ordered condition-to-glyph table of icon_for_condition (src/app.py
lines 58-76; Python dicts iterate in insertion order). -/
def mapping : List (String × String) :=
  [("sunny", "☀"), ("clear", "☀"), ("clear-night", "☾"), ("cloudy", "☁"),
   ("partlycloudy", "⛅"), ("partly cloudy", "⛅"), ("rainy", "☂"),
   ("pouring", "☔"), ("snowy", "❄"), ("snowy-rainy", "❄☂"), ("hail", "☄"),
   ("lightning", "⚡"), ("lightning-rainy", "⛈"), ("windy", "🌀"),
   ("fog", "〰"), ("windy-variant", "🌀☁"), ("exceptional", "!")]

/-- The for-loop of icon_for_condition: the first entry whose key is a
prefix of the condition wins. -/
def firstIcon (c : String) : List (String × String) → Option String
  | [] => none
  | (key, icon) :: rest => if startswith c key then some icon else firstIcon c rest

/-- Embedding of icon_for_condition (src/app.py lines 56-80). -/
def icon_for_condition (condition : String) : String :=
  (firstIcon (pyLower condition) mapping).getD "·"

/-- One measuring pass: measure text size stands for
text_size(draw, text, get_font(size)) of src/app.py lines 30-45 — the pixel
bounding box the external font backend reports for the text at that font
size. -/
abbrev Measure := String → Int → Nat × Nat

/-- Python range(max_size, min_size - 1, -2) (src/app.py line 110): the
descending arithmetic progression max_size, max_size - 2, ... of values
greater than min_size - 1. -/
def sizeRange (max_size min_size : Int) : List Int :=
  (List.range (((max_size - (min_size - 1)).toNat + 1) / 2)).map
    (fun (i : Nat) => max_size - 2 * (i : Int))

/-- The scanning loop of fit_text_in_box (src/app.py lines 110-114). -/
def fitScan (measure : Measure) (text : String) (bw bh : Int) :
    List Int → Option (Int × Nat × Nat)
  | [] => none
  | size :: rest =>
    let m := measure text size
    if (m.1 : Int) ≤ bw ∧ (m.2 : Int) ≤ bh then some (size, m.1, m.2)
    else fitScan measure text bw bh rest

/-- Embedding of fit_text_in_box (src/app.py lines 94-119). Returns (chosen
font size, text width, text height); the Python version returns the font
object get_font(size) in place of the bare size. Box is (left, top, right,
bottom); degenerate boxes are clamped to 1 pixel per dimension. -/
def fit_text_in_box (measure : Measure) (text : String)
    (box : Int × Int × Int × Int) (max_size min_size : Int) : Int × Nat × Nat :=
  let box_w := max 1 (box.2.2.1 - box.1)
  let box_h := max 1 (box.2.2.2 - box.2.1)
  match fitScan measure text box_w box_h (sizeRange max_size min_size) with
  | some r => r
  | none => (min_size, (measure text min_size).1, (measure text min_size).2)

/-- The fitting test the scan applies at a given size, against the clamped
box. -/
def fitsIn (measure : Measure) (text : String) (box : Int × Int × Int × Int)
    (size : Int) : Prop :=
  ((measure text size).1 : Int) ≤ max 1 (box.2.2.1 - box.1) ∧
  ((measure text size).2 : Int) ≤ max 1 (box.2.2.2 - box.2.1)

instance (measure : Measure) (text : String) (box : Int × Int × Int × Int)
    (size : Int) : Decidable (fitsIn measure text box size) :=
  inferInstanceAs (Decidable (_ ∧ _))

theorem mem_sizeRange {max_size min_size x : Int}
    (h : x ∈ sizeRange max_size min_size) : min_size ≤ x ∧ x ≤ max_size := by
  rw [sizeRange] at h
  obtain ⟨i, hi, rfl⟩ := List.mem_map.mp h
  have hi2 := List.mem_range.mp hi
  omega

theorem max_mem_sizeRange {max_size min_size : Int} (h : min_size ≤ max_size) :
    max_size ∈ sizeRange max_size min_size := by
  rw [sizeRange]
  exact List.mem_map.mpr ⟨0, List.mem_range.mpr (by omega), by omega⟩

theorem sizeRange_sorted (max_size min_size : Int) :
    (sizeRange max_size min_size).Pairwise (fun a b => b < a) := by
  rw [sizeRange]
  exact List.Pairwise.map _ (fun {a b} hab => by omega) (List.pairwise_lt_range _)

theorem fitScan_none {measure : Measure} {text : String} {bw bh : Int}
    {l : List Int}
    (h : ∀ s ∈ l, ¬(((measure text s).1 : Int) ≤ bw ∧ ((measure text s).2 : Int) ≤ bh)) :
    fitScan measure text bw bh l = none := by
  induction l with
  | nil => rfl
  | cons s rest ih =>
    simp only [fitScan]
    rw [if_neg (h s (List.mem_cons_self s rest))]
    exact ih fun x hx => h x (List.mem_cons_of_mem s hx)

theorem fitScan_some {measure : Measure} {text : String} {bw bh : Int}
    {l : List Int} {r : Int × Nat × Nat}
    (h : fitScan measure text bw bh l = some r) :
    r.1 ∈ l ∧ r.2 = measure text r.1 ∧
      ((measure text r.1).1 : Int) ≤ bw ∧ ((measure text r.1).2 : Int) ≤ bh := by
  induction l with
  | nil => simp [fitScan] at h
  | cons s rest ih =>
    simp only [fitScan] at h
    by_cases hc : ((measure text s).1 : Int) ≤ bw ∧ ((measure text s).2 : Int) ≤ bh
    · rw [if_pos hc] at h
      obtain rfl : (s, (measure text s).1, (measure text s).2) = r := by
        simpa using h
      exact ⟨List.mem_cons_self _ _, rfl, hc⟩
    · rw [if_neg hc] at h
      obtain ⟨h1, h2, h3⟩ := ih h
      exact ⟨List.mem_cons_of_mem _ h1, h2, h3⟩

theorem fitScan_isSome {measure : Measure} {text : String} {bw bh : Int}
    {l : List Int} {x : Int} (hx : x ∈ l)
    (hfit : ((measure text x).1 : Int) ≤ bw ∧ ((measure text x).2 : Int) ≤ bh) :
    (fitScan measure text bw bh l).isSome := by
  induction l with
  | nil => simp at hx
  | cons s rest ih =>
    simp only [fitScan]
    by_cases hc : ((measure text s).1 : Int) ≤ bw ∧ ((measure text s).2 : Int) ≤ bh
    · rw [if_pos hc]; rfl
    · rw [if_neg hc]
      rcases List.mem_cons.mp hx with rfl | hmem
      · exact absurd hfit hc
      · exact ih hmem

theorem fitScan_first {measure : Measure} {text : String} {bw bh : Int}
    {l : List Int} {r : Int × Nat × Nat}
    (hs : l.Pairwise (fun a b => b < a))
    (h : fitScan measure text bw bh l = some r) {x : Int} (hx : x ∈ l)
    (hfit : ((measure text x).1 : Int) ≤ bw ∧ ((measure text x).2 : Int) ≤ bh) :
    x ≤ r.1 := by
  induction l with
  | nil => simp at hx
  | cons s rest ih =>
    simp only [fitScan] at h
    by_cases hc : ((measure text s).1 : Int) ≤ bw ∧ ((measure text s).2 : Int) ≤ bh
    · rw [if_pos hc] at h
      obtain rfl : (s, (measure text s).1, (measure text s).2) = r := by simpa using h
      rcases List.mem_cons.mp hx with rfl | hmem
      · exact le_refl _
      · exact le_of_lt ((List.pairwise_cons.mp hs).1 x hmem)
    · rw [if_neg hc] at h
      rcases List.mem_cons.mp hx with rfl | hmem
      · exact absurd hfit hc
      · exact ih (List.pairwise_cons.mp hs).2 h hmem

/-- A linear measuring backend for concrete checks: text at font size s
measures s by s pixels. -/
def measure9 : Measure := fun _ s => (s.toNat, s.toNat)

/-- A measuring backend on which nothing ever fits. -/
def measure1000 : Measure := fun _ _ => (1000, 1000)

/-- C5: for every measuring backend, text, integer box and size range with
max_size ≥ min_size > 0, the font size fit_text_in_box returns lies within
[min_size, max_size]; degenerate boxes are clamped to one pixel per dimension
inside the fitter rather than causing an error, so no constraint on the box
is needed. -/
theorem C5_fit_size_in_range (measure : Measure) (text : String)
    (box : Int × Int × Int × Int) (max_size min_size : Int)
    (hpos : 0 < min_size) (hle : min_size ≤ max_size) :
    min_size ≤ (fit_text_in_box measure text box max_size min_size).1 ∧
    (fit_text_in_box measure text box max_size min_size).1 ≤ max_size := by
  simp only [fit_text_in_box]
  split
  next r heq =>
    have hmem := (fitScan_some heq).1
    exact mem_sizeRange hmem
  next heq =>
    exact ⟨le_refl _, hle⟩

/-- Witness for C5 at a concrete input. -/
theorem C5_witness :
    (2 : Int) ≤ (fit_text_in_box measure9 "x" (0, 0, 9, 9) 10 2).1 ∧
    (fit_text_in_box measure9 "x" (0, 0, 9, 9) 10 2).1 ≤ 10 :=
  C5_fit_size_in_range measure9 "x" (0, 0, 9, 9) 10 2 (by norm_num) (by norm_num)

/-- C6: when no scanned size in the range fits the box, fit_text_in_box
falls back to the measurement at exactly min_size; being a total function it
raises no error and tolerates overflow. -/
theorem C6_fit_fallback_min_size (measure : Measure) (text : String)
    (box : Int × Int × Int × Int) (max_size min_size : Int)
    (h : ∀ s ∈ sizeRange max_size min_size, ¬ fitsIn measure text box s) :
    fit_text_in_box measure text box max_size min_size =
      (min_size, (measure text min_size).1, (measure text min_size).2) := by
  simp only [fit_text_in_box]
  rw [fitScan_none (fun s hs => h s hs)]

/-- Witness for C6 at a concrete input: nothing fits a 9-by-9 box when every
measurement is 1000 by 1000, and the fitter returns the min_size
measurement. -/
theorem C6_witness :
    fit_text_in_box measure1000 "x" (0, 0, 9, 9) 6 2 = (2, 1000, 1000) :=
  C6_fit_fallback_min_size measure1000 "x" (0, 0, 9, 9) 6 2 (by decide)

/-- C1 (amended): among the sizes the step-2 descending scan visits
(max_size, max_size - 2, ...), fit_text_in_box returns the largest fitting
one, together with its measurement; a fitting size in [min_size, max_size]
skipped by the step-2 scan can be missed, so maximality holds over the
scanned candidates, not over every integer in the range. -/
theorem C1_fit_largest_scanned (measure : Measure) (text : String)
    (box : Int × Int × Int × Int) (max_size min_size s : Int)
    (hs : s ∈ sizeRange max_size min_size) (hfit : fitsIn measure text box s) :
    (fit_text_in_box measure text box max_size min_size).1 ∈ sizeRange max_size min_size ∧
    fitsIn measure text box (fit_text_in_box measure text box max_size min_size).1 ∧
    s ≤ (fit_text_in_box measure text box max_size min_size).1 ∧
    (fit_text_in_box measure text box max_size min_size).2 =
      measure text (fit_text_in_box measure text box max_size min_size).1 := by
  have hfit2 : ((measure text s).1 : Int) ≤ max 1 (box.2.2.1 - box.1) ∧
      ((measure text s).2 : Int) ≤ max 1 (box.2.2.2 - box.2.1) := hfit
  have hsome := fitScan_isSome hs hfit2
  obtain ⟨r, heq⟩ := Option.isSome_iff_exists.mp hsome
  have hspec := fitScan_some heq
  have hmax := fitScan_first (sizeRange_sorted max_size min_size) heq hs hfit
  simp only [fit_text_in_box]
  rw [heq]
  exact ⟨hspec.1, ⟨hspec.2.2.1, hspec.2.2.2⟩, hmax, hspec.2.1⟩

/-- Witness for C1 (amended) at a concrete input. -/
theorem C1_witness :
    (fit_text_in_box measure9 "x" (0, 0, 9, 9) 10 2).1 ∈ sizeRange 10 2 ∧
    fitsIn measure9 "x" (0, 0, 9, 9) (fit_text_in_box measure9 "x" (0, 0, 9, 9) 10 2).1 ∧
    (8 : Int) ≤ (fit_text_in_box measure9 "x" (0, 0, 9, 9) 10 2).1 ∧
    (fit_text_in_box measure9 "x" (0, 0, 9, 9) 10 2).2 =
      measure9 "x" (fit_text_in_box measure9 "x" (0, 0, 9, 9) 10 2).1 :=
  C1_fit_largest_scanned measure9 "x" (0, 0, 9, 9) 10 2 8 (by decide) (by decide)

/-- C1 counterexample: with the linear backend measure9 and box (0,0,9,9),
size 9 lies in [2, 10] and its measurement fits, size 10 does not fit, yet
fit_text_in_box returns font size 8 — a smaller fitting size although a
larger fitting size (9) exists in the range, because the step-2 scan never
visits 9. -/
theorem C1_counterexample :
    (2 : Int) ≤ 9 ∧ (9 : Int) ≤ 10 ∧
    fitsIn measure9 "x" (0, 0, 9, 9) 9 ∧
    ¬ fitsIn measure9 "x" (0, 0, 9, 9) 10 ∧
    (fit_text_in_box measure9 "x" (0, 0, 9, 9) 10 2).1 = 8 ∧ (8 : Int) < 9 := by
  decide

theorem firstIcon_spec (c : String) (l : List (String × String)) :
    (firstIcon c l = none ∧ ∀ kg ∈ l, ¬ startswith c kg.1 = true) ∨
    (∃ i : Fin l.length, firstIcon c l = some (l.get i).2 ∧
      startswith c (l.get i).1 = true ∧
      ∀ j : Fin l.length, (j : Nat) < (i : Nat) → ¬ startswith c (l.get j).1 = true) := by
  induction l with
  | nil => exact Or.inl ⟨rfl, by simp⟩
  | cons kg rest ih =>
    by_cases h : startswith c kg.1 = true
    · refine Or.inr ⟨⟨0, by simp⟩, ?_, h, ?_⟩
      · simp only [firstIcon, h, if_true]
        rfl
      · intro j hj
        simp at hj
    · rcases ih with ⟨hnone, hall⟩ | ⟨i, hsome, hstart, hmin⟩
      · refine Or.inl ⟨?_, ?_⟩
        · simp only [firstIcon, h, if_false]
          exact hnone
        · intro x hx
          rcases List.mem_cons.mp hx with rfl | hmem
          · exact h
          · exact hall x hmem
      · refine Or.inr ⟨⟨i.1 + 1, by have hi := i.2; simp only [List.length_cons]; omega⟩,
          ?_, ?_, ?_⟩
        · simp only [firstIcon, h, if_false]
          rw [hsome]
          rfl
        · simpa using hstart
        · intro j hj
          match j with
          | ⟨0, hj0⟩ => exact h
          | ⟨jj + 1, hjs⟩ =>
            have hjlt : jj < i.1 := by simpa using hj
            have hjr : jj < rest.length := by simp only [List.length_cons] at hjs; omega
            have := hmin ⟨jj, hjr⟩ hjlt
            simpa using this

/-- Monotonicity of startswith in the prefix argument: when p is itself a
prefix of q, any string starting with q starts with p. -/
theorem startswith_mono {c p q : String} (hpq : p.data <+: q.data)
    (h : startswith c q = true) : startswith c p = true := by
  unfold startswith at *
  rw [ List.isPrefixOf_iff_prefix] at h ⊢
  exact hpq.trans h

/-- C4: icon_for_condition lowercases its input and returns the glyph of the
first table entry, in declaration order, whose key is a prefix of the
lowercased condition; an empty or unmatched condition yields the mid-dot
fallback glyph. The first-match rule makes the table order-sensitive: an
input matching two keys gets the earlier-declared glyph. -/
theorem C4_icon_first_match :
    icon_for_condition "" = "·" ∧
    ∀ condition : String,
      (icon_for_condition condition = "·" ∧
        ∀ kg ∈ mapping, ¬ startswith (pyLower condition) kg.1 = true) ∨
      (∃ i : Fin mapping.length,
        icon_for_condition condition = (mapping.get i).2 ∧
        startswith (pyLower condition) (mapping.get i).1 = true ∧
        ∀ j : Fin mapping.length, (j : Nat) < (i : Nat) →
          ¬ startswith (pyLower condition) (mapping.get j).1 = true) := by
  refine ⟨by decide, fun condition => ?_⟩
  rcases firstIcon_spec (pyLower condition) mapping with ⟨hnone, hall⟩ | ⟨i, hsome, hstart, hmin⟩
  · exact Or.inl ⟨by simp [icon_for_condition, hnone], hall⟩
  · exact Or.inr ⟨i, by simp [icon_for_condition, hsome], hstart, hmin⟩

/-- Shadowing in the glyph table: when the only entry carrying glyph gl sits
at index i0, and an earlier entry's key at index j0 is a prefix of the key at
i0, the glyph gl can never be returned — any condition matching the longer
key already matched the earlier, shorter one. -/
theorem icon_not_shadowed (gl : String) (i0 j0 : Nat)
    (hi0 : i0 < mapping.length) (hj0 : j0 < mapping.length) (hlt : j0 < i0)
    (hpre : (mapping.get ⟨j0, hj0⟩).1.data <+: (mapping.get ⟨i0, hi0⟩).1.data)
    (huniq : ∀ k : Fin mapping.length, (mapping.get k).2 = gl → k.1 = i0)
    (hgl : gl ≠ "·") : ∀ c, icon_for_condition c ≠ gl := by
  intro c hc
  rcases firstIcon_spec (pyLower c) mapping with ⟨hnone, _⟩ | ⟨i, hsome, hstart, hmin⟩
  · rw [icon_for_condition, hnone] at hc
    exact hgl hc.symm
  · rw [icon_for_condition, hsome] at hc
    have hieq : i.1 = i0 := huniq i (by simpa using hc)
    have hfin : i = ⟨i0, hi0⟩ := Fin.ext hieq
    subst hfin
    exact hmin ⟨j0, hj0⟩ (by simpa using hlt) (startswith_mono hpre hstart)

/-- C9: because "clear" is declared before "clear-night", "snowy" before
"snowy-rainy", "lightning" before "lightning-rainy" and "windy" before
"windy-variant", the longer-key entries are unreachable: the four listed
conditions resolve to the shorter key's glyph, and the shadowed glyphs are
returned for no input at all. -/
theorem C9_longer_keys_shadowed :
    icon_for_condition "clear-night" = "☀" ∧
    icon_for_condition "snowy-rainy" = "❄" ∧
    icon_for_condition "lightning-rainy" = "⚡" ∧
    icon_for_condition "windy-variant" = "🌀" ∧
    (∀ c, icon_for_condition c ≠ "☾") ∧
    (∀ c, icon_for_condition c ≠ "❄☂") ∧
    (∀ c, icon_for_condition c ≠ "⛈") ∧
    (∀ c, icon_for_condition c ≠ "🌀☁") := by
  refine ⟨by decide, by decide, by decide, by decide, ?_, ?_, ?_, ?_⟩
  · exact icon_not_shadowed "☾" 2 1 (by decide) (by decide) (by decide)
      (by decide) (by decide) (by decide)
  · exact icon_not_shadowed "❄☂" 9 8 (by decide) (by decide) (by decide)
      (by decide) (by decide) (by decide)
  · exact icon_not_shadowed "⛈" 12 11 (by decide) (by decide) (by decide)
      (by decide) (by decide) (by decide)
  · exact icon_not_shadowed "🌀☁" 15 13 (by decide) (by decide) (by decide)
      (by decide) (by decide) (by decide)

/-- C7: format_speed returns the dash placeholder exactly for the states
"unknown", "unavailable" and None, independent of the attributes map; a state
that parses as a float is rendered to one decimal place followed by the unit;
any other state is rendered as the raw state string followed by the unit
(in both cases with surrounding whitespace stripped, so an empty unit leaves
no trailing blank). -/
theorem C7_format_speed_cases :
    (∀ attrs : Attrs,
      format_speed (some "unknown") attrs = "-" ∧
      format_speed (some "unavailable") attrs = "-" ∧
      format_speed none attrs = "-") ∧
    (∀ (s : String) (attrs : Attrs) (v : PyFloat),
      s ≠ "unknown" → s ≠ "unavailable" → pyFloat? s = some v →
      format_speed (some s) attrs =
        pyStrip (formatFixed1 v ++ " " ++
          valStr ((aget attrs "unit_of_measurement").getD (.str "")))) ∧
    (∀ (s : String) (attrs : Attrs),
      s ≠ "unknown" → s ≠ "unavailable" → pyFloat? s = none →
      format_speed (some s) attrs =
        pyStrip (s ++ " " ++
          valStr ((aget attrs "unit_of_measurement").getD (.str "")))) := by
  refine ⟨fun attrs => ⟨rfl, rfl, rfl⟩, ?_, ?_⟩
  · intro s attrs v h1 h2 hp
    simp only [format_speed, if_neg (not_or.mpr ⟨h1, h2⟩), hp]
  · intro s attrs h1 h2 hp
    simp only [format_speed, if_neg (not_or.mpr ⟨h1, h2⟩), hp]

/-- Embedding of numeric_state (src/python/app.py lines 129-143). The
gateway call ha_state(entity_id) is the fetch parameter: ok (state, attrs)
models a successful read (state none for a JSON null), error models a raised
transport error caught by the except clause. -/
def numeric_state (entity_id : String)
    (fetch : Except Unit (Option String × Attrs)) :
    Option PyFloat × Option AttrVal × Attrs :=
  if entity_id = "" then (none, none, [])
  else
    match fetch with
    | .error _ => (none, none, [])
    | .ok (state, attrs) =>
      match state with
      | none => (none, aget attrs "unit_of_measurement", attrs)
      | some s =>
        if s = "unknown" ∨ s = "unavailable" then
          (none, aget attrs "unit_of_measurement", attrs)
        else
          match pyFloat? s with
          | some value => (some value, aget attrs "unit_of_measurement", attrs)
          | none => (none, none, [])

/-- C10: numeric_state is a total function (so it never raises); an empty
entity id yields (None, None, empty) whatever the gateway would return (no
gateway call is consulted); a sentinel or missing state yields a None value
with the unit taken from the attributes; a fetch failure or a float-parse
failure yields (None, None, empty). -/
theorem C10_numeric_state_total :
    (∀ fetch, numeric_state "" fetch = (none, none, [])) ∧
    (∀ eid : String, eid ≠ "" →
      numeric_state eid (.error ()) = (none, none, [])) ∧
    (∀ (eid : String) (attrs : Attrs), eid ≠ "" →
      numeric_state eid (.ok (none, attrs)) =
        (none, aget attrs "unit_of_measurement", attrs) ∧
      numeric_state eid (.ok (some "unknown", attrs)) =
        (none, aget attrs "unit_of_measurement", attrs) ∧
      numeric_state eid (.ok (some "unavailable", attrs)) =
        (none, aget attrs "unit_of_measurement", attrs)) ∧
    (∀ (eid s : String) (attrs : Attrs), eid ≠ "" →
      s ≠ "unknown" → s ≠ "unavailable" → pyFloat? s = none →
      numeric_state eid (.ok (some s, attrs)) = (none, none, [])) := by
  refine ⟨fun fetch => rfl, ?_, ?_, ?_⟩
  · intro eid h
    simp only [numeric_state, if_neg h]
  · intro eid attrs h
    refine ⟨?_, ?_, ?_⟩ <;> simp only [numeric_state, if_neg h] <;> rfl
  · intro eid s attrs h h1 h2 hp
    simp only [numeric_state, if_neg h, if_neg (not_or.mpr ⟨h1, h2⟩), hp]

/-- One draw.text call of the compositor: position, rendered text and the
requested font size (the Python code passes get_font(size)). -/
structure DrawCmd where
  x : Int
  y : Int
  text : String
  size : Int
deriving DecidableEq, Repr

/-- The external world one render pass consumes: the font measuring backend,
the rasterizer (the pixel effect of one draw.text call, a PIL detail the
geometry never depends on), the three gateway fetches and the current time
string. ha_state raising is an error value; ok carries (state, attributes).
The transmission states are optional strings because format_speed
distinguishes None. -/
structure World where
  measure : Measure
  raster : DrawCmd → (Nat → Nat → Nat) → (Nat → Nat → Nat)
  fetchWeather : Except String (String × Attrs)
  fetchDL : Except Unit (Option String × Attrs)
  fetchUL : Except Unit (Option String × Attrs)
  now : String

/-- The transmission try-block (src/app.py lines 159-167): both gateway
reads happen inside one try, so a failure of either leaves both texts
"ERR"; otherwise each state is formatted with format_speed. Returns
(dl_text, ul_text). -/
def tx_texts (dl ul : Except Unit (Option String × Attrs)) : String × String :=
  match dl with
  | .error _ => ("ERR", "ERR")
  | .ok dlr =>
    match ul with
    | .error _ => ("ERR", "ERR")
    | .ok ulr => (format_speed dlr.1 dlr.2, format_speed ulr.1 ulr.2)

/-- The big-temperature string (src/app.py lines 221-228): the temperature
attribute rendered to zero decimal places plus the unit, the raw value plus
the unit when float() fails, or the em dash when the attribute is absent. -/
def temp_str_of (attrs : Attrs) : String :=
  let temp_unit := valStr ((aget attrs "temperature_unit").getD (.str "°C"))
  match aget attrs "temperature" with
  | none => "—"
  | some t =>
    match pyFloatV t with
    | some v => formatFixed0 v ++ temp_unit
    | none => valStr t ++ temp_unit

/-- The temperature box (src/app.py lines 230-233): (split_x + 10, margin,
CANVAS_WIDTH - margin, CANVAS_HEIGHT // 2 - 10) = (430, 24, 776, 290). -/
def tempBox : Int × Int × Int × Int := (430, 24, 776, 290)

/-- Appending one draw.text call to the draw order. -/
def addText (cmds : List DrawCmd) (x y : Int) (text : String) (size : Int) :
    List DrawCmd :=
  cmds ++ [⟨x, y, text, size⟩]

/-- The add_detail closure of build_image_bytes (src/app.py lines 178-182):
draw "label: value" at the left margin in the detail font (size 32) and
advance y by the font size plus 8. -/
def add_detail (cmds : List DrawCmd) (y : Int) (label value : String) :
    List DrawCmd × Int :=
  (addText cmds 24 y (label ++ ": " ++ value) 32, y + 32 + 8)

/-- The icon box top with its guard (src/app.py lines 253-262): the box
starts 20 pixels under the rendered temperature (its draw y plus its
measured height th) and ends at 536; when that leaves no more than 20 pixels
the top is reset to CANVAS_HEIGHT // 2 + 10 = 310. -/
def icon_top_of (temp_y : Int) (th : Nat) : Int :=
  let icon_box_top := temp_y + (th : Int) + 20
  if (536 : Int) ≤ icon_box_top + 20 then 310 else icon_box_top

/-- The ordered sequence of draw.text calls build_image_bytes issues
(src/app.py lines 122-276). The weather-fetch failure branch draws the two
error lines; the success branch draws the condition header, the optional
detail lines, the transmission block, the updated timestamp, the fitted
temperature and the fitted weather icon, in source order. Canvas constants:
CANVAS_WIDTH = 800, CANVAS_HEIGHT = 600, margin = 24, split_x = 420; fixed
font sizes 56/32/30/28/20 as in the source. -/
def buildCmds (w : World) : List DrawCmd :=
  match w.fetchWeather with
  | .error e =>
    addText (addText [] 24 24 "Error reading weather" 32) 24 (24 + 40) e 20
  | .ok wres =>
    let condition := wres.1
    let w_attrs := wres.2
    let humidity := aget w_attrs "humidity"
    let pressure := aget w_attrs "pressure"
    let wind_speed := pyOr (aget w_attrs "wind_speed") (aget w_attrs "native_wind_speed")
    let wind_speed_unit := pyOrD (aget w_attrs "wind_speed_unit")
        (pyOrD (aget w_attrs "native_wind_speed_unit") (.str "m/s"))
    let wind_bearing := aget w_attrs "wind_bearing"
    let cloud_coverage := aget w_attrs "cloud_coverage"
    let uv_index := aget w_attrs "uv_index"
    let tx := tx_texts w.fetchDL w.fetchUL
    let dl_text := tx.1
    let ul_text := tx.2
    let cond_text := pyCapitalize condition
    let cmds0 := addText [] 24 24 cond_text 56
    let y0 : Int := 24 + 56 + 16
    let s1 := match humidity with
      | some h => add_detail cmds0 y0 "Humidity" (valStr h ++ "%")
      | none => (cmds0, y0)
    let s2 := match pressure with
      | some p => add_detail s1.1 s1.2 "Pressure" (valStr p ++ " hPa")
      | none => s1
    let s3 := match wind_speed with
      | some ws =>
        let ws_str := match pyFloatV ws with
          | some v => formatFixed1 v ++ " " ++ valStr wind_speed_unit
          | none => valStr ws ++ " " ++ valStr wind_speed_unit
        let bearing := match wind_bearing with
          | some b => if truthy b then " (" ++ valStr b ++ ")" else ""
          | none => ""
        add_detail s2.1 s2.2 "Wind" (ws_str ++ bearing)
      | none => s2
    let s4 := match cloud_coverage with
      | some cc => add_detail s3.1 s3.2 "Clouds" (valStr cc ++ "%")
      | none => s3
    let s5 := match uv_index with
      | some uv => add_detail s4.1 s4.2 "UV Index" (valStr uv)
      | none => s4
    let y6 := s5.2 + 16
    let cmds6 := addText s5.1 24 y6 "Transmission:" 30
    let y7 := y6 + 30 + 6
    let cmds7 := addText cmds6 24 y7 ("Up: " ++ ul_text) 28
    let y8 := y7 + 28 + 4
    let cmds8 := addText cmds7 24 y8 ("Down: " ++ dl_text) 28
    let updated_text := "Updated: " ++ w.now
    let upd := w.measure updated_text 20
    let cmds9 := addText cmds8 24 (600 - 24 - (upd.2 : Int)) updated_text 20
    let temp_str := temp_str_of w_attrs
    let f := fit_text_in_box w.measure temp_str tempBox 180 80
    let temp_x := (tempBox.1 + tempBox.2.2.1).fdiv 2 - ((f.2.1 : Int)).fdiv 2
    let temp_y := (tempBox.2.1 + tempBox.2.2.2).fdiv 2 - ((f.2.2 : Int)).fdiv 2
    let cmds10 := addText cmds9 temp_x temp_y temp_str f.1
    let icon := icon_for_condition condition
    let icon_top := icon_top_of temp_y f.2.2
    let g := fit_text_in_box w.measure icon (430, icon_top, 776, 536) 260 80
    let icon_x := ((430 : Int) + 776).fdiv 2 - ((g.2.1 : Int)).fdiv 2
    let icon_y := (icon_top + 536).fdiv 2 - ((g.2.2 : Int)).fdiv 2
    addText cmds10 icon_x icon_y icon g.1

/-- The canvas: PIL Image.new("L", (W, H), fill) plus the draw calls
applied to it. Pixels are addressed px row col; drawing never changes the
dimensions. -/
structure Canvas where
  width : Nat
  height : Nat
  px : Nat → Nat → Nat

/-- The finished landscape canvas of one render pass: an 800 x 600 white
(255) image with the pixel effect of every draw command folded over it in
draw order. -/
def buildImage (w : World) : Canvas :=
  ⟨800, 600, (buildCmds w).foldl (fun p c => w.raster c p) (fun _ _ => 255)⟩

/-- PIL img.rotate(-90, expand=True): a quarter turn clockwise; width and
height swap and each new row reads up an original column. -/
def rotateNeg90 (c : Canvas) : Canvas :=
  ⟨c.height, c.width, fun row col => c.px (c.height - 1 - col) row⟩

/-- PIL Image.tobytes() on a mode-"L" image: the raw row-major pixel bytes,
one byte per pixel, no header; byte i is the pixel at row i / width,
column i % width. -/
def tobytes (c : Canvas) : List Nat :=
  (List.range (c.height * c.width)).map (fun i => c.px (i / c.width) (i % c.width))

/-- Embedding of build_image_bytes (src/app.py lines 122-280): both the
error branch (line 142-143) and the success branch (line 278-280) rotate the
landscape canvas by -90 degrees and serialize it raw. -/
def build_image_bytes (w : World) : List Nat :=
  tobytes (rotateNeg90 (buildImage w))

/-- A world with the two throughput fetch outcomes replaced. -/
def setTx (w : World) (d u : Except Unit (Option String × Attrs)) : World :=
  { w with fetchDL := d, fetchUL := u }

@[simp] theorem setTx_fetchWeather (w : World) (d u : Except Unit (Option String × Attrs)) :
    (setTx w d u).fetchWeather = w.fetchWeather := rfl

@[simp] theorem setTx_fetchDL (w : World) (d u : Except Unit (Option String × Attrs)) :
    (setTx w d u).fetchDL = d := rfl

@[simp] theorem setTx_fetchUL (w : World) (d u : Except Unit (Option String × Attrs)) :
    (setTx w d u).fetchUL = u := rfl

@[simp] theorem setTx_measure (w : World) (d u : Except Unit (Option String × Attrs)) :
    (setTx w d u).measure = w.measure := rfl

@[simp] theorem setTx_raster (w : World) (d u : Except Unit (Option String × Attrs)) :
    (setTx w d u).raster = w.raster := rfl

@[simp] theorem setTx_now (w : World) (d u : Except Unit (Option String × Attrs)) :
    (setTx w d u).now = w.now := rfl

/-- C3: every buffer build_image_bytes returns — success path and
weather-fetch-failure path alike, since both branches of buildCmds feed the
same rotate-then-serialize tail — is the serialization of the -90-degree
rotated canvas, whose post-rotation dimensions are 600 x 800, and has
exactly 600 * 800 = 480000 bytes. -/
theorem C3_buffer_size (w : World) :
    build_image_bytes w = tobytes (rotateNeg90 (buildImage w)) ∧
    (rotateNeg90 (buildImage w)).width = 600 ∧
    (rotateNeg90 (buildImage w)).height = 800 ∧
    (build_image_bytes w).length = 480000 := by
  refine ⟨rfl, rfl, rfl, ?_⟩
  show (tobytes (rotateNeg90 (buildImage w))).length = 480000
  unfold tobytes
  rw [List.length_map, List.length_range]
  have h1 : (rotateNeg90 (buildImage w)).height = 800 := rfl
  have h2 : (rotateNeg90 (buildImage w)).width = 600 := rfl
  rw [h1, h2]

/-- C2 counterexample: with the download fetch raising and the upload entity
readable as 12.5 MB/s, the renderer substitutes "ERR" — not the dash
placeholder "-" — and the upload text (another reading's content) also
becomes "ERR" instead of its formatted value, because both reads share one
try-block. -/
theorem C2_counterexample :
    tx_texts (.error ()) (.ok (some "12.5", [("unit_of_measurement", .str "MB/s")]))
      = ("ERR", "ERR") ∧
    format_speed (some "12.5") [("unit_of_measurement", .str "MB/s")] = "12.5 MB/s" ∧
    ("ERR" : String) ≠ "-" ∧ ("ERR" : String) ≠ "12.5 MB/s" := by
  exact ⟨rfl, by decide, by decide, by decide⟩

/-- C2 (amended): when fetching either throughput entity fails, the renderer
substitutes "ERR" for both throughput readings (the dash placeholder is
reserved for sentinel states); the rendered draw commands and the output
bytes depend on the two throughput fetches only through the pair of
formatted texts, so the failure leaves every other region's content
unchanged. -/
theorem C2_tx_failure_err :
    (∀ (e : Unit) (u : Except Unit (Option String × Attrs)),
      tx_texts (.error e) u = ("ERR", "ERR")) ∧
    (∀ (e : Unit) (d : Except Unit (Option String × Attrs)),
      tx_texts d (.error e) = ("ERR", "ERR")) ∧
    (∀ (w : World) (d u d2 u2 : Except Unit (Option String × Attrs)),
      tx_texts d u = tx_texts d2 u2 →
      buildCmds (setTx w d u) = buildCmds (setTx w d2 u2) ∧
      build_image_bytes (setTx w d u) = build_image_bytes (setTx w d2 u2)) := by
  refine ⟨fun e u => rfl, fun e d => ?_, fun w d u d2 u2 h => ?_⟩
  · cases d with
    | error e2 => rfl
    | ok dlr => rfl
  · have hcmds : buildCmds (setTx w d u) = buildCmds (setTx w d2 u2) := by
      simp only [buildCmds, setTx_fetchWeather, setTx_fetchDL, setTx_fetchUL,
        setTx_measure, setTx_now]
      rcases hw : w.fetchWeather with e3 | wres
      · rfl
      · rw [h]
    refine ⟨hcmds, ?_⟩
    unfold build_image_bytes buildImage
    rw [hcmds, setTx_raster, setTx_raster]

/-- C8: the compositor places each fitted element at
((l + r) / 2 - w / 2, (t + b) / 2 - h / 2) for its box (l, t, r, b) and
measured size (w, h), both axes centered independently with Python floor
division: the draw command of the fitted temperature (box tempBox) and of
the fitted icon glyph (box (430, icon_top, 776, 536)) appear in the draw
order at exactly these positions. -/
theorem C8_centering (w : World) (ws : String) (attrs : Attrs)
    (h : w.fetchWeather = .ok (ws, attrs)) :
    (let f := fit_text_in_box w.measure (temp_str_of attrs) tempBox 180 80
     (⟨(tempBox.1 + tempBox.2.2.1).fdiv 2 - ((f.2.1 : Int)).fdiv 2,
       (tempBox.2.1 + tempBox.2.2.2).fdiv 2 - ((f.2.2 : Int)).fdiv 2,
       temp_str_of attrs, f.1⟩ : DrawCmd) ∈ buildCmds w) ∧
    (let f := fit_text_in_box w.measure (temp_str_of attrs) tempBox 180 80
     let temp_y := (tempBox.2.1 + tempBox.2.2.2).fdiv 2 - ((f.2.2 : Int)).fdiv 2
     let icon_top := icon_top_of temp_y f.2.2
     let g := fit_text_in_box w.measure (icon_for_condition ws)
       (430, icon_top, 776, 536) 260 80
     (⟨((430 : Int) + 776).fdiv 2 - ((g.2.1 : Int)).fdiv 2,
       (icon_top + 536).fdiv 2 - ((g.2.2 : Int)).fdiv 2,
       icon_for_condition ws, g.1⟩ : DrawCmd) ∈ buildCmds w) := by
  constructor <;>
    simp [buildCmds, h, addText, add_detail, List.mem_append]

/-- A concrete attributes map for witnesses: temperature 21.4 degrees
Celsius, humidity 55 percent. -/
def sampleAttrs : Attrs :=
  [("temperature", .num ⟨214, 10⟩), ("temperature_unit", .str "°C"),
   ("humidity", .num ⟨55, 1⟩)]

/-- A concrete world for witnesses: the linear measuring backend, a
rasterizer with no pixel effect, a sunny weather read, one readable and one
unknown throughput entity. -/
def sampleWorld : World where
  measure := measure9
  raster := fun _ p => p
  fetchWeather := .ok ("sunny", sampleAttrs)
  fetchDL := .ok (some "12.5", [("unit_of_measurement", .str "MB/s")])
  fetchUL := .ok (some "unknown", [])
  now := "2024-01-01 00:00"

/-- Witness for C8 at the concrete sample world. -/
theorem C8_witness :
    (let f := fit_text_in_box sampleWorld.measure (temp_str_of sampleAttrs) tempBox 180 80
     (⟨(tempBox.1 + tempBox.2.2.1).fdiv 2 - ((f.2.1 : Int)).fdiv 2,
       (tempBox.2.1 + tempBox.2.2.2).fdiv 2 - ((f.2.2 : Int)).fdiv 2,
       temp_str_of sampleAttrs, f.1⟩ : DrawCmd) ∈ buildCmds sampleWorld) ∧
    (let f := fit_text_in_box sampleWorld.measure (temp_str_of sampleAttrs) tempBox 180 80
     let temp_y := (tempBox.2.1 + tempBox.2.2.2).fdiv 2 - ((f.2.2 : Int)).fdiv 2
     let icon_top := icon_top_of temp_y f.2.2
     let g := fit_text_in_box sampleWorld.measure (icon_for_condition "sunny")
       (430, icon_top, 776, 536) 260 80
     (⟨((430 : Int) + 776).fdiv 2 - ((g.2.1 : Int)).fdiv 2,
       (icon_top + 536).fdiv 2 - ((g.2.2 : Int)).fdiv 2,
       icon_for_condition "sunny", g.1⟩ : DrawCmd) ∈ buildCmds sampleWorld) :=
  C8_centering sampleWorld "sunny" sampleAttrs rfl
